import Mathlib

/-!
Verification of the rustdoc implementors loader
`doc/implementors/core/str/traits/trait.FromStr.js`.

The source file is an IIFE: it builds a registry object by 41 successive
assignments `implementors["key"] = [record, …]`, then either calls the host
callback `window.register_implementors(implementors)` when that slot holds a
truthy value, or stores the registry in `window.pending_implementors`.

The embedding below models the registry construction as a fold of object-key
assignments over an association list, JavaScript values relevant to the two
window slots as an inductive type with JavaScript truthiness, and one run of
the IIFE (`publish`) as a function from an environment (the two slots plus the
rest of `window`) to a final environment, the sequence of callback
invocations performed, and whether the run threw.  Calling a truthy
non-function value throws a `TypeError`; a host callback is modelled with a
flag saying whether its body throws when invoked (its own side effects are
host-scope and out of this component, so only the invocation and its argument
are recorded).
-/

/-- One implementor record of the registry: the fields of each JSON object
literal `{"text": …, "synthetic": …, "types": […]}` in the source. -/
structure ImplementorRecord where
  text : String
  synthetic : Bool
  types : List String
deriving DecidableEq, Repr

/-- The sequence of `implementors["…"] = […]` assignments performed by the
source file, in source order, each a namespace key paired with its record list. -/
def registryAssignments : List (String × List ImplementorRecord) := [
  ("arrayvec", [⟨"impl&lt;A&gt; <a class=\"trait\" href=\"https://doc.rust-lang.org/1.58.0/core/str/traits/trait.FromStr.html\" title=\"trait core::str::traits::FromStr\">FromStr</a> for <a class=\"struct\" href=\"arrayvec/struct.ArrayString.html\" title=\"struct arrayvec::ArrayString\">ArrayString</a>&lt;A&gt; <span class=\"where fmt-newline\">where<br>&nbsp;&nbsp;&nbsp;&nbsp;A: <a class=\"trait\" href=\"arrayvec/trait.Array.html\" title=\"trait arrayvec::Array\">Array</a>&lt;Item = <a class=\"primitive\" href=\"https://doc.rust-lang.org/1.58.0/core/primitive.u8.html\">u8</a>&gt; + <a class=\"trait\" href=\"https://doc.rust-lang.org/1.58.0/core/marker/trait.Copy.html\" title=\"trait core::marker::Copy\">Copy</a>,&nbsp;</span>", false, ["arrayvec::array_string::ArrayString"]⟩]),
  ("ascii", [⟨"impl <a class=\"trait\" href=\"https://doc.rust-lang.org/1.58.0/core/str/traits/trait.FromStr.html\" title=\"trait core::str::traits::FromStr\">FromStr</a> for <a class=\"struct\" href=\"ascii/struct.AsciiString.html\" title=\"struct ascii::AsciiString\">AsciiString</a>", false, ["ascii::ascii_string::AsciiString"]⟩]),
  ("async_std", [⟨"impl <a class=\"trait\" href=\"https://doc.rust-lang.org/1.58.0/core/str/traits/trait.FromStr.html\" title=\"trait core::str::traits::FromStr\">FromStr</a> for <a class=\"struct\" href=\"async_std/path/struct.PathBuf.html\" title=\"struct async_std::path::PathBuf\">PathBuf</a>", false, ["async_std::path::pathbuf::PathBuf"]⟩]),
  ("bigdecimal", [⟨"impl <a class=\"trait\" href=\"https://doc.rust-lang.org/1.58.0/core/str/traits/trait.FromStr.html\" title=\"trait core::str::traits::FromStr\">FromStr</a> for <a class=\"struct\" href=\"bigdecimal/struct.BigDecimal.html\" title=\"struct bigdecimal::BigDecimal\">BigDecimal</a>", false, ["bigdecimal::BigDecimal"]⟩]),
  ("bson", [⟨"impl <a class=\"trait\" href=\"https://doc.rust-lang.org/1.58.0/core/str/traits/trait.FromStr.html\" title=\"trait core::str::traits::FromStr\">FromStr</a> for <a class=\"struct\" href=\"bson/oid/struct.ObjectId.html\" title=\"struct bson::oid::ObjectId\">ObjectId</a>", false, ["bson::oid::ObjectId"]⟩]),
  ("chrono", [⟨"impl <a class=\"trait\" href=\"https://doc.rust-lang.org/1.58.0/core/str/traits/trait.FromStr.html\" title=\"trait core::str::traits::FromStr\">FromStr</a> for <a class=\"struct\" href=\"chrono/naive/struct.NaiveDate.html\" title=\"struct chrono::naive::NaiveDate\">NaiveDate</a>", false, ["chrono::naive::date::NaiveDate"]⟩,
    ⟨"impl <a class=\"trait\" href=\"https://doc.rust-lang.org/1.58.0/core/str/traits/trait.FromStr.html\" title=\"trait core::str::traits::FromStr\">FromStr</a> for <a class=\"struct\" href=\"chrono/naive/struct.NaiveDateTime.html\" title=\"struct chrono::naive::NaiveDateTime\">NaiveDateTime</a>", false, ["chrono::naive::datetime::NaiveDateTime"]⟩,
    ⟨"impl <a class=\"trait\" href=\"https://doc.rust-lang.org/1.58.0/core/str/traits/trait.FromStr.html\" title=\"trait core::str::traits::FromStr\">FromStr</a> for <a class=\"struct\" href=\"chrono/naive/struct.NaiveTime.html\" title=\"struct chrono::naive::NaiveTime\">NaiveTime</a>", false, ["chrono::naive::time::NaiveTime"]⟩,
    ⟨"impl <a class=\"trait\" href=\"https://doc.rust-lang.org/1.58.0/core/str/traits/trait.FromStr.html\" title=\"trait core::str::traits::FromStr\">FromStr</a> for <a class=\"struct\" href=\"chrono/struct.DateTime.html\" title=\"struct chrono::DateTime\">DateTime</a>&lt;<a class=\"struct\" href=\"chrono/offset/struct.Utc.html\" title=\"struct chrono::offset::Utc\">Utc</a>&gt;", false, ["chrono::datetime::DateTime"]⟩,
    ⟨"impl <a class=\"trait\" href=\"https://doc.rust-lang.org/1.58.0/core/str/traits/trait.FromStr.html\" title=\"trait core::str::traits::FromStr\">FromStr</a> for <a class=\"struct\" href=\"chrono/struct.DateTime.html\" title=\"struct chrono::DateTime\">DateTime</a>&lt;<a class=\"struct\" href=\"chrono/offset/struct.Local.html\" title=\"struct chrono::offset::Local\">Local</a>&gt;", false, ["chrono::datetime::DateTime"]⟩,
    ⟨"impl <a class=\"trait\" href=\"https://doc.rust-lang.org/1.58.0/core/str/traits/trait.FromStr.html\" title=\"trait core::str::traits::FromStr\">FromStr</a> for <a class=\"struct\" href=\"chrono/struct.DateTime.html\" title=\"struct chrono::DateTime\">DateTime</a>&lt;<a class=\"struct\" href=\"chrono/offset/struct.FixedOffset.html\" title=\"struct chrono::offset::FixedOffset\">FixedOffset</a>&gt;", false, ["chrono::datetime::DateTime"]⟩,
    ⟨"impl <a class=\"trait\" href=\"https://doc.rust-lang.org/1.58.0/core/str/traits/trait.FromStr.html\" title=\"trait core::str::traits::FromStr\">FromStr</a> for <a class=\"enum\" href=\"chrono/enum.Weekday.html\" title=\"enum chrono::Weekday\">Weekday</a>", false, ["chrono::Weekday"]⟩,
    ⟨"impl <a class=\"trait\" href=\"https://doc.rust-lang.org/1.58.0/core/str/traits/trait.FromStr.html\" title=\"trait core::str::traits::FromStr\">FromStr</a> for <a class=\"enum\" href=\"chrono/enum.Month.html\" title=\"enum chrono::Month\">Month</a>", false, ["chrono::Month"]⟩]),
  ("clap", [⟨"impl <a class=\"trait\" href=\"https://doc.rust-lang.org/1.58.0/core/str/traits/trait.FromStr.html\" title=\"trait core::str::traits::FromStr\">FromStr</a> for <a class=\"enum\" href=\"clap/enum.AppSettings.html\" title=\"enum clap::AppSettings\">AppSettings</a>", false, ["clap::app::settings::AppSettings"]⟩,
    ⟨"impl <a class=\"trait\" href=\"https://doc.rust-lang.org/1.58.0/core/str/traits/trait.FromStr.html\" title=\"trait core::str::traits::FromStr\">FromStr</a> for <a class=\"enum\" href=\"clap/enum.ArgSettings.html\" title=\"enum clap::ArgSettings\">ArgSettings</a>", false, ["clap::args::settings::ArgSettings"]⟩,
    ⟨"impl <a class=\"trait\" href=\"https://doc.rust-lang.org/1.58.0/core/str/traits/trait.FromStr.html\" title=\"trait core::str::traits::FromStr\">FromStr</a> for <a class=\"enum\" href=\"clap/enum.Shell.html\" title=\"enum clap::Shell\">Shell</a>", false, ["clap::completions::shell::Shell"]⟩]),
  ("colored", [⟨"impl <a class=\"trait\" href=\"https://doc.rust-lang.org/1.58.0/core/str/traits/trait.FromStr.html\" title=\"trait core::str::traits::FromStr\">FromStr</a> for <a class=\"enum\" href=\"colored/enum.Color.html\" title=\"enum colored::Color\">Color</a>", false, ["colored::color::Color"]⟩]),
  ("connection_string", [⟨"impl <a class=\"trait\" href=\"https://doc.rust-lang.org/1.58.0/core/str/traits/trait.FromStr.html\" title=\"trait core::str::traits::FromStr\">FromStr</a> for <a class=\"struct\" href=\"connection_string/struct.AdoNetString.html\" title=\"struct connection_string::AdoNetString\">AdoNetString</a>", false, ["connection_string::ado::AdoNetString"]⟩,
    ⟨"impl <a class=\"trait\" href=\"https://doc.rust-lang.org/1.58.0/core/str/traits/trait.FromStr.html\" title=\"trait core::str::traits::FromStr\">FromStr</a> for <a class=\"struct\" href=\"connection_string/struct.JdbcString.html\" title=\"struct connection_string::JdbcString\">JdbcString</a>", false, ["connection_string::jdbc::JdbcString"]⟩]),
  ("cookie", [⟨"impl <a class=\"trait\" href=\"https://doc.rust-lang.org/1.58.0/core/str/traits/trait.FromStr.html\" title=\"trait core::str::traits::FromStr\">FromStr</a> for <a class=\"struct\" href=\"cookie/struct.Cookie.html\" title=\"struct cookie::Cookie\">Cookie</a>&lt;\x27static&gt;", false, ["cookie::Cookie"]⟩]),
  ("datamodel_connector", [⟨"impl <a class=\"trait\" href=\"https://doc.rust-lang.org/1.58.0/core/str/traits/trait.FromStr.html\" title=\"trait core::str::traits::FromStr\">FromStr</a> for <a class=\"enum\" href=\"datamodel_connector/capabilities/enum.ConnectorCapability.html\" title=\"enum datamodel_connector::capabilities::ConnectorCapability\">ConnectorCapability</a>", false, ["datamodel_connector::capabilities::ConnectorCapability"]⟩]),
  ("dml", [⟨"impl <a class=\"trait\" href=\"https://doc.rust-lang.org/1.58.0/core/str/traits/trait.FromStr.html\" title=\"trait core::str::traits::FromStr\">FromStr</a> for <a class=\"enum\" href=\"dml/scalars/enum.ScalarType.html\" title=\"enum dml::scalars::ScalarType\">ScalarType</a>", false, ["dml::scalars::ScalarType"]⟩]),
  ("graphql_parser", [⟨"impl <a class=\"trait\" href=\"https://doc.rust-lang.org/1.58.0/core/str/traits/trait.FromStr.html\" title=\"trait core::str::traits::FromStr\">FromStr</a> for <a class=\"enum\" href=\"graphql_parser/schema/enum.DirectiveLocation.html\" title=\"enum graphql_parser::schema::DirectiveLocation\">DirectiveLocation</a>", false, ["graphql_parser::schema::ast::DirectiveLocation"]⟩]),
  ("http", [⟨"impl <a class=\"trait\" href=\"https://doc.rust-lang.org/1.58.0/core/str/traits/trait.FromStr.html\" title=\"trait core::str::traits::FromStr\">FromStr</a> for <a class=\"struct\" href=\"http/header/struct.HeaderName.html\" title=\"struct http::header::HeaderName\">HeaderName</a>", false, ["http::header::name::HeaderName"]⟩,
    ⟨"impl <a class=\"trait\" href=\"https://doc.rust-lang.org/1.58.0/core/str/traits/trait.FromStr.html\" title=\"trait core::str::traits::FromStr\">FromStr</a> for <a class=\"struct\" href=\"http/header/struct.HeaderValue.html\" title=\"struct http::header::HeaderValue\">HeaderValue</a>", false, ["http::header::value::HeaderValue"]⟩,
    ⟨"impl <a class=\"trait\" href=\"https://doc.rust-lang.org/1.58.0/core/str/traits/trait.FromStr.html\" title=\"trait core::str::traits::FromStr\">FromStr</a> for <a class=\"struct\" href=\"http/method/struct.Method.html\" title=\"struct http::method::Method\">Method</a>", false, ["http::method::Method"]⟩,
    ⟨"impl <a class=\"trait\" href=\"https://doc.rust-lang.org/1.58.0/core/str/traits/trait.FromStr.html\" title=\"trait core::str::traits::FromStr\">FromStr</a> for <a class=\"struct\" href=\"http/status/struct.StatusCode.html\" title=\"struct http::status::StatusCode\">StatusCode</a>", false, ["http::status::StatusCode"]⟩,
    ⟨"impl <a class=\"trait\" href=\"https://doc.rust-lang.org/1.58.0/core/str/traits/trait.FromStr.html\" title=\"trait core::str::traits::FromStr\">FromStr</a> for <a class=\"struct\" href=\"http/uri/struct.Authority.html\" title=\"struct http::uri::Authority\">Authority</a>", false, ["http::uri::authority::Authority"]⟩,
    ⟨"impl <a class=\"trait\" href=\"https://doc.rust-lang.org/1.58.0/core/str/traits/trait.FromStr.html\" title=\"trait core::str::traits::FromStr\">FromStr</a> for <a class=\"struct\" href=\"http/uri/struct.PathAndQuery.html\" title=\"struct http::uri::PathAndQuery\">PathAndQuery</a>", false, ["http::uri::path::PathAndQuery"]⟩,
    ⟨"impl <a class=\"trait\" href=\"https://doc.rust-lang.org/1.58.0/core/str/traits/trait.FromStr.html\" title=\"trait core::str::traits::FromStr\">FromStr</a> for <a class=\"struct\" href=\"http/uri/struct.Scheme.html\" title=\"struct http::uri::Scheme\">Scheme</a>", false, ["http::uri::scheme::Scheme"]⟩,
    ⟨"impl <a class=\"trait\" href=\"https://doc.rust-lang.org/1.58.0/core/str/traits/trait.FromStr.html\" title=\"trait core::str::traits::FromStr\">FromStr</a> for <a class=\"struct\" href=\"http/uri/struct.Uri.html\" title=\"struct http::uri::Uri\">Uri</a>", false, ["http::uri::Uri"]⟩]),
  ("http_types", [⟨"impl <a class=\"trait\" href=\"https://doc.rust-lang.org/1.58.0/core/str/traits/trait.FromStr.html\" title=\"trait core::str::traits::FromStr\">FromStr</a> for <a class=\"enum\" href=\"http_types/auth/enum.AuthenticationScheme.html\" title=\"enum http_types::auth::AuthenticationScheme\">AuthenticationScheme</a>", false, ["http_types::auth::authentication_scheme::AuthenticationScheme"]⟩,
    ⟨"impl <a class=\"trait\" href=\"https://doc.rust-lang.org/1.58.0/core/str/traits/trait.FromStr.html\" title=\"trait core::str::traits::FromStr\">FromStr</a> for <a class=\"enum\" href=\"http_types/cache/enum.ClearDirective.html\" title=\"enum http_types::cache::ClearDirective\">ClearDirective</a>", false, ["http_types::cache::clear_site_data::directive::ClearDirective"]⟩,
    ⟨"impl <a class=\"trait\" href=\"https://doc.rust-lang.org/1.58.0/core/str/traits/trait.FromStr.html\" title=\"trait core::str::traits::FromStr\">FromStr</a> for <a class=\"struct\" href=\"http_types/headers/struct.HeaderName.html\" title=\"struct http_types::headers::HeaderName\">HeaderName</a>", false, ["http_types::headers::header_name::HeaderName"]⟩,
    ⟨"impl <a class=\"trait\" href=\"https://doc.rust-lang.org/1.58.0/core/str/traits/trait.FromStr.html\" title=\"trait core::str::traits::FromStr\">FromStr</a> for <a class=\"struct\" href=\"http_types/headers/struct.HeaderValue.html\" title=\"struct http_types::headers::HeaderValue\">HeaderValue</a>", false, ["http_types::headers::header_value::HeaderValue"]⟩,
    ⟨"impl <a class=\"trait\" href=\"https://doc.rust-lang.org/1.58.0/core/str/traits/trait.FromStr.html\" title=\"trait core::str::traits::FromStr\">FromStr</a> for <a class=\"struct\" href=\"http_types/struct.Mime.html\" title=\"struct http_types::Mime\">Mime</a>", false, ["http_types::mime::Mime"]⟩,
    ⟨"impl <a class=\"trait\" href=\"https://doc.rust-lang.org/1.58.0/core/str/traits/trait.FromStr.html\" title=\"trait core::str::traits::FromStr\">FromStr</a> for <a class=\"struct\" href=\"http_types/mime/struct.ParamName.html\" title=\"struct http_types::mime::ParamName\">ParamName</a>", false, ["http_types::mime::ParamName"]⟩,
    ⟨"impl <a class=\"trait\" href=\"https://doc.rust-lang.org/1.58.0/core/str/traits/trait.FromStr.html\" title=\"trait core::str::traits::FromStr\">FromStr</a> for <a class=\"enum\" href=\"http_types/enum.Method.html\" title=\"enum http_types::Method\">Method</a>", false, ["http_types::method::Method"]⟩]),
  ("httpdate", [⟨"impl <a class=\"trait\" href=\"https://doc.rust-lang.org/1.58.0/core/str/traits/trait.FromStr.html\" title=\"trait core::str::traits::FromStr\">FromStr</a> for <a class=\"struct\" href=\"httpdate/struct.HttpDate.html\" title=\"struct httpdate::HttpDate\">HttpDate</a>", false, ["httpdate::date::HttpDate"]⟩]),
  ("hyper", [⟨"impl <a class=\"trait\" href=\"https://doc.rust-lang.org/1.58.0/core/str/traits/trait.FromStr.html\" title=\"trait core::str::traits::FromStr\">FromStr</a> for <a class=\"struct\" href=\"hyper/client/connect/dns/struct.Name.html\" title=\"struct hyper::client::connect::dns::Name\">Name</a>", false, ["hyper::client::connect::dns::Name"]⟩]),
  ("ipnet", [⟨"impl <a class=\"trait\" href=\"https://doc.rust-lang.org/1.58.0/core/str/traits/trait.FromStr.html\" title=\"trait core::str::traits::FromStr\">FromStr</a> for <a class=\"enum\" href=\"ipnet/enum.IpNet.html\" title=\"enum ipnet::IpNet\">IpNet</a>", false, ["ipnet::ipnet::IpNet"]⟩,
    ⟨"impl <a class=\"trait\" href=\"https://doc.rust-lang.org/1.58.0/core/str/traits/trait.FromStr.html\" title=\"trait core::str::traits::FromStr\">FromStr</a> for <a class=\"struct\" href=\"ipnet/struct.Ipv4Net.html\" title=\"struct ipnet::Ipv4Net\">Ipv4Net</a>", false, ["ipnet::ipnet::Ipv4Net"]⟩,
    ⟨"impl <a class=\"trait\" href=\"https://doc.rust-lang.org/1.58.0/core/str/traits/trait.FromStr.html\" title=\"trait core::str::traits::FromStr\">FromStr</a> for <a class=\"struct\" href=\"ipnet/struct.Ipv6Net.html\" title=\"struct ipnet::Ipv6Net\">Ipv6Net</a>", false, ["ipnet::ipnet::Ipv6Net"]⟩]),
  ("log", [⟨"impl <a class=\"trait\" href=\"https://doc.rust-lang.org/1.58.0/core/str/traits/trait.FromStr.html\" title=\"trait core::str::traits::FromStr\">FromStr</a> for <a class=\"enum\" href=\"log/enum.Level.html\" title=\"enum log::Level\">Level</a>", false, ["log::Level"]⟩,
    ⟨"impl <a class=\"trait\" href=\"https://doc.rust-lang.org/1.58.0/core/str/traits/trait.FromStr.html\" title=\"trait core::str::traits::FromStr\">FromStr</a> for <a class=\"enum\" href=\"log/enum.LevelFilter.html\" title=\"enum log::LevelFilter\">LevelFilter</a>", false, ["log::LevelFilter"]⟩]),
  ("matchers", [⟨"impl <a class=\"trait\" href=\"https://doc.rust-lang.org/1.58.0/core/str/traits/trait.FromStr.html\" title=\"trait core::str::traits::FromStr\">FromStr</a> for <a class=\"struct\" href=\"matchers/struct.Pattern.html\" title=\"struct matchers::Pattern\">Pattern</a>", false, ["matchers::Pattern"]⟩]),
  ("mongodb", [⟨"impl <a class=\"trait\" href=\"https://doc.rust-lang.org/1.58.0/core/str/traits/trait.FromStr.html\" title=\"trait core::str::traits::FromStr\">FromStr</a> for <a class=\"enum\" href=\"mongodb/options/enum.AuthMechanism.html\" title=\"enum mongodb::options::AuthMechanism\">AuthMechanism</a>", false, ["mongodb::client::auth::AuthMechanism"]⟩,
    ⟨"impl <a class=\"trait\" href=\"https://doc.rust-lang.org/1.58.0/core/str/traits/trait.FromStr.html\" title=\"trait core::str::traits::FromStr\">FromStr</a> for <a class=\"enum\" href=\"mongodb/options/enum.ServerAddress.html\" title=\"enum mongodb::options::ServerAddress\">ServerAddress</a>", false, ["mongodb::client::options::ServerAddress"]⟩,
    ⟨"impl <a class=\"trait\" href=\"https://doc.rust-lang.org/1.58.0/core/str/traits/trait.FromStr.html\" title=\"trait core::str::traits::FromStr\">FromStr</a> for <a class=\"enum\" href=\"mongodb/options/enum.ServerApiVersion.html\" title=\"enum mongodb::options::ServerApiVersion\">ServerApiVersion</a>", false, ["mongodb::client::options::ServerApiVersion"]⟩,
    ⟨"impl <a class=\"trait\" href=\"https://doc.rust-lang.org/1.58.0/core/str/traits/trait.FromStr.html\" title=\"trait core::str::traits::FromStr\">FromStr</a> for <a class=\"enum\" href=\"mongodb/options/enum.CollationCaseFirst.html\" title=\"enum mongodb::options::CollationCaseFirst\">CollationCaseFirst</a>", false, ["mongodb::collation::CollationCaseFirst"]⟩,
    ⟨"impl <a class=\"trait\" href=\"https://doc.rust-lang.org/1.58.0/core/str/traits/trait.FromStr.html\" title=\"trait core::str::traits::FromStr\">FromStr</a> for <a class=\"enum\" href=\"mongodb/options/enum.CollationAlternate.html\" title=\"enum mongodb::options::CollationAlternate\">CollationAlternate</a>", false, ["mongodb::collation::CollationAlternate"]⟩,
    ⟨"impl <a class=\"trait\" href=\"https://doc.rust-lang.org/1.58.0/core/str/traits/trait.FromStr.html\" title=\"trait core::str::traits::FromStr\">FromStr</a> for <a class=\"enum\" href=\"mongodb/options/enum.CollationMaxVariable.html\" title=\"enum mongodb::options::CollationMaxVariable\">CollationMaxVariable</a>", false, ["mongodb::collation::CollationMaxVariable"]⟩]),
  ("mysql_async", [⟨"impl <a class=\"trait\" href=\"https://doc.rust-lang.org/1.58.0/core/str/traits/trait.FromStr.html\" title=\"trait core::str::traits::FromStr\">FromStr</a> for <a class=\"struct\" href=\"mysql_async/struct.Opts.html\" title=\"struct mysql_async::Opts\">Opts</a>", false, ["mysql_async::opts::Opts"]⟩]),
  ("num_bigint", [⟨"impl <a class=\"trait\" href=\"https://doc.rust-lang.org/1.58.0/core/str/traits/trait.FromStr.html\" title=\"trait core::str::traits::FromStr\">FromStr</a> for <a class=\"struct\" href=\"num_bigint/struct.BigInt.html\" title=\"struct num_bigint::BigInt\">BigInt</a>", false, ["num_bigint::bigint::BigInt"]⟩,
    ⟨"impl <a class=\"trait\" href=\"https://doc.rust-lang.org/1.58.0/core/str/traits/trait.FromStr.html\" title=\"trait core::str::traits::FromStr\">FromStr</a> for <a class=\"struct\" href=\"num_bigint/struct.BigUint.html\" title=\"struct num_bigint::BigUint\">BigUint</a>", false, ["num_bigint::biguint::BigUint"]⟩]),
  ("opentelemetry", [⟨"impl <a class=\"trait\" href=\"https://doc.rust-lang.org/1.58.0/core/str/traits/trait.FromStr.html\" title=\"trait core::str::traits::FromStr\">FromStr</a> for <a class=\"struct\" href=\"opentelemetry/trace/struct.TraceState.html\" title=\"struct opentelemetry::trace::TraceState\">TraceState</a>", false, ["opentelemetry::trace::span_context::TraceState"]⟩]),
  ("postgres_types", [⟨"impl <a class=\"trait\" href=\"https://doc.rust-lang.org/1.58.0/core/str/traits/trait.FromStr.html\" title=\"trait core::str::traits::FromStr\">FromStr</a> for <a class=\"struct\" href=\"postgres_types/struct.PgLsn.html\" title=\"struct postgres_types::PgLsn\">PgLsn</a>", false, ["postgres_types::pg_lsn::PgLsn"]⟩]),
  ("proc_macro2", [⟨"impl <a class=\"trait\" href=\"https://doc.rust-lang.org/1.58.0/core/str/traits/trait.FromStr.html\" title=\"trait core::str::traits::FromStr\">FromStr</a> for <a class=\"struct\" href=\"proc_macro2/struct.TokenStream.html\" title=\"struct proc_macro2::TokenStream\">TokenStream</a>", false, ["proc_macro2::TokenStream"]⟩,
    ⟨"impl <a class=\"trait\" href=\"https://doc.rust-lang.org/1.58.0/core/str/traits/trait.FromStr.html\" title=\"trait core::str::traits::FromStr\">FromStr</a> for <a class=\"struct\" href=\"proc_macro2/struct.Literal.html\" title=\"struct proc_macro2::Literal\">Literal</a>", false, ["proc_macro2::Literal"]⟩]),
  ("quaint", [⟨"impl <a class=\"trait\" href=\"https://doc.rust-lang.org/1.58.0/core/str/traits/trait.FromStr.html\" title=\"trait core::str::traits::FromStr\">FromStr</a> for <a class=\"enum\" href=\"quaint/connector/enum.EncryptMode.html\" title=\"enum quaint::connector::EncryptMode\">EncryptMode</a>", false, ["quaint::connector::mssql::EncryptMode"]⟩,
    ⟨"impl <a class=\"trait\" href=\"https://doc.rust-lang.org/1.58.0/core/str/traits/trait.FromStr.html\" title=\"trait core::str::traits::FromStr\">FromStr</a> for <a class=\"enum\" href=\"quaint/connector/enum.IsolationLevel.html\" title=\"enum quaint::connector::IsolationLevel\">IsolationLevel</a>", false, ["quaint::connector::mssql::IsolationLevel"]⟩]),
  ("query_tests_setup", [⟨"impl <a class=\"trait\" href=\"https://doc.rust-lang.org/1.58.0/core/str/traits/trait.FromStr.html\" title=\"trait core::str::traits::FromStr\">FromStr</a> for <a class=\"enum\" href=\"query_tests_setup/enum.VitessVersion.html\" title=\"enum query_tests_setup::VitessVersion\">VitessVersion</a>", false, ["query_tests_setup::connector_tag::vitess::VitessVersion"]⟩,
    ⟨"impl <a class=\"trait\" href=\"https://doc.rust-lang.org/1.58.0/core/str/traits/trait.FromStr.html\" title=\"trait core::str::traits::FromStr\">FromStr</a> for <a class=\"struct\" href=\"query_tests_setup/struct.DatamodelWithParams.html\" title=\"struct query_tests_setup::DatamodelWithParams\">DatamodelWithParams</a>", false, ["query_tests_setup::schema_gen::schema_with_relation::DatamodelWithParams"]⟩]),
  ("regex", [⟨"impl <a class=\"trait\" href=\"https://doc.rust-lang.org/1.58.0/core/str/traits/trait.FromStr.html\" title=\"trait core::str::traits::FromStr\">FromStr</a> for <a class=\"struct\" href=\"regex/bytes/struct.Regex.html\" title=\"struct regex::bytes::Regex\">Regex</a>", false, ["regex::re_bytes::Regex"]⟩,
    ⟨"impl <a class=\"trait\" href=\"https://doc.rust-lang.org/1.58.0/core/str/traits/trait.FromStr.html\" title=\"trait core::str::traits::FromStr\">FromStr</a> for <a class=\"struct\" href=\"regex/struct.Regex.html\" title=\"struct regex::Regex\">Regex</a>", false, ["regex::re_unicode::Regex"]⟩]),
  ("resolv_conf", [⟨"impl <a class=\"trait\" href=\"https://doc.rust-lang.org/1.58.0/core/str/traits/trait.FromStr.html\" title=\"trait core::str::traits::FromStr\">FromStr</a> for <a class=\"enum\" href=\"resolv_conf/enum.ScopedIp.html\" title=\"enum resolv_conf::ScopedIp\">ScopedIp</a>", false, ["resolv_conf::ip::ScopedIp"]⟩]),
  ("serde_json", [⟨"impl <a class=\"trait\" href=\"https://doc.rust-lang.org/1.58.0/core/str/traits/trait.FromStr.html\" title=\"trait core::str::traits::FromStr\">FromStr</a> for <a class=\"struct\" href=\"serde_json/value/struct.Number.html\" title=\"struct serde_json::value::Number\">Number</a>", false, ["serde_json::number::Number"]⟩,
    ⟨"impl <a class=\"trait\" href=\"https://doc.rust-lang.org/1.58.0/core/str/traits/trait.FromStr.html\" title=\"trait core::str::traits::FromStr\">FromStr</a> for <a class=\"enum\" href=\"serde_json/enum.Value.html\" title=\"enum serde_json::Value\">Value</a>", false, ["serde_json::value::Value"]⟩]),
  ("sha1", [⟨"impl <a class=\"trait\" href=\"https://doc.rust-lang.org/1.58.0/core/str/traits/trait.FromStr.html\" title=\"trait core::str::traits::FromStr\">FromStr</a> for <a class=\"struct\" href=\"sha1/struct.Digest.html\" title=\"struct sha1::Digest\">Digest</a>", false, ["sha1::Digest"]⟩]),
  ("test_cli", [⟨"impl <a class=\"trait\" href=\"https://doc.rust-lang.org/1.58.0/core/str/traits/trait.FromStr.html\" title=\"trait core::str::traits::FromStr\">FromStr</a> for <a class=\"enum\" href=\"test_cli/enum.DiffOutputType.html\" title=\"enum test_cli::DiffOutputType\">DiffOutputType</a>", false, ["test_cli::DiffOutputType"]⟩]),
  ("tokio_postgres", [⟨"impl <a class=\"trait\" href=\"https://doc.rust-lang.org/1.58.0/core/str/traits/trait.FromStr.html\" title=\"trait core::str::traits::FromStr\">FromStr</a> for <a class=\"struct\" href=\"tokio_postgres/config/struct.Config.html\" title=\"struct tokio_postgres::config::Config\">Config</a>", false, ["tokio_postgres::config::Config"]⟩]),
  ("toml", [⟨"impl <a class=\"trait\" href=\"https://doc.rust-lang.org/1.58.0/core/str/traits/trait.FromStr.html\" title=\"trait core::str::traits::FromStr\">FromStr</a> for <a class=\"enum\" href=\"toml/value/enum.Value.html\" title=\"enum toml::value::Value\">Value</a>", false, ["toml::value::Value"]⟩,
    ⟨"impl <a class=\"trait\" href=\"https://doc.rust-lang.org/1.58.0/core/str/traits/trait.FromStr.html\" title=\"trait core::str::traits::FromStr\">FromStr</a> for <a class=\"struct\" href=\"toml/value/struct.Datetime.html\" title=\"struct toml::value::Datetime\">Datetime</a>", false, ["toml::datetime::Datetime"]⟩]),
  ("tonic", [⟨"impl&lt;VE:&nbsp;ValueEncoding&gt; <a class=\"trait\" href=\"https://doc.rust-lang.org/1.58.0/core/str/traits/trait.FromStr.html\" title=\"trait core::str::traits::FromStr\">FromStr</a> for <a class=\"struct\" href=\"tonic/metadata/struct.MetadataKey.html\" title=\"struct tonic::metadata::MetadataKey\">MetadataKey</a>&lt;VE&gt;", false, ["tonic::metadata::key::MetadataKey"]⟩,
    ⟨"impl <a class=\"trait\" href=\"https://doc.rust-lang.org/1.58.0/core/str/traits/trait.FromStr.html\" title=\"trait core::str::traits::FromStr\">FromStr</a> for <a class=\"struct\" href=\"tonic/transport/channel/struct.Endpoint.html\" title=\"struct tonic::transport::channel::Endpoint\">Endpoint</a>", false, ["tonic::transport::channel::endpoint::Endpoint"]⟩]),
  ("tracing_core", [⟨"impl <a class=\"trait\" href=\"https://doc.rust-lang.org/1.58.0/core/str/traits/trait.FromStr.html\" title=\"trait core::str::traits::FromStr\">FromStr</a> for <a class=\"struct\" href=\"tracing_core/struct.Level.html\" title=\"struct tracing_core::Level\">Level</a>", false, ["tracing_core::metadata::Level"]⟩,
    ⟨"impl <a class=\"trait\" href=\"https://doc.rust-lang.org/1.58.0/core/str/traits/trait.FromStr.html\" title=\"trait core::str::traits::FromStr\">FromStr</a> for <a class=\"struct\" href=\"tracing_core/struct.LevelFilter.html\" title=\"struct tracing_core::LevelFilter\">LevelFilter</a>", false, ["tracing_core::metadata::LevelFilter"]⟩]),
  ("tracing_subscriber", [⟨"impl <a class=\"trait\" href=\"https://doc.rust-lang.org/1.58.0/core/str/traits/trait.FromStr.html\" title=\"trait core::str::traits::FromStr\">FromStr</a> for <a class=\"struct\" href=\"tracing_subscriber/filter/struct.Directive.html\" title=\"struct tracing_subscriber::filter::Directive\">Directive</a>", false, ["tracing_subscriber::filter::env::directive::Directive"]⟩,
    ⟨"impl <a class=\"trait\" href=\"https://doc.rust-lang.org/1.58.0/core/str/traits/trait.FromStr.html\" title=\"trait core::str::traits::FromStr\">FromStr</a> for <a class=\"struct\" href=\"tracing_subscriber/filter/struct.EnvFilter.html\" title=\"struct tracing_subscriber::filter::EnvFilter\">EnvFilter</a>", false, ["tracing_subscriber::filter::env::EnvFilter"]⟩,
    ⟨"impl <a class=\"trait\" href=\"https://doc.rust-lang.org/1.58.0/core/str/traits/trait.FromStr.html\" title=\"trait core::str::traits::FromStr\">FromStr</a> for <a class=\"struct\" href=\"tracing_subscriber/filter/targets/struct.Targets.html\" title=\"struct tracing_subscriber::filter::targets::Targets\">Targets</a>", false, ["tracing_subscriber::filter::targets::Targets"]⟩]),
  ("trust_dns_proto", [⟨"impl <a class=\"trait\" href=\"https://doc.rust-lang.org/1.58.0/core/str/traits/trait.FromStr.html\" title=\"trait core::str::traits::FromStr\">FromStr</a> for <a class=\"enum\" href=\"trust_dns_proto/rr/dns_class/enum.DNSClass.html\" title=\"enum trust_dns_proto::rr::dns_class::DNSClass\">DNSClass</a>", false, ["trust_dns_proto::rr::dns_class::DNSClass"]⟩,
    ⟨"impl <a class=\"trait\" href=\"https://doc.rust-lang.org/1.58.0/core/str/traits/trait.FromStr.html\" title=\"trait core::str::traits::FromStr\">FromStr</a> for <a class=\"struct\" href=\"trust_dns_proto/rr/domain/struct.Name.html\" title=\"struct trust_dns_proto::rr::domain::Name\">Name</a>", false, ["trust_dns_proto::rr::domain::name::Name"]⟩,
    ⟨"impl <a class=\"trait\" href=\"https://doc.rust-lang.org/1.58.0/core/str/traits/trait.FromStr.html\" title=\"trait core::str::traits::FromStr\">FromStr</a> for <a class=\"enum\" href=\"trust_dns_proto/rr/rdata/svcb/enum.SvcParamKey.html\" title=\"enum trust_dns_proto::rr::rdata::svcb::SvcParamKey\">SvcParamKey</a>", false, ["trust_dns_proto::rr::rdata::svcb::SvcParamKey"]⟩,
    ⟨"impl <a class=\"trait\" href=\"https://doc.rust-lang.org/1.58.0/core/str/traits/trait.FromStr.html\" title=\"trait core::str::traits::FromStr\">FromStr</a> for <a class=\"enum\" href=\"trust_dns_proto/rr/record_type/enum.RecordType.html\" title=\"enum trust_dns_proto::rr::record_type::RecordType\">RecordType</a>", false, ["trust_dns_proto::rr::record_type::RecordType"]⟩]),
  ("url", [⟨"impl <a class=\"trait\" href=\"https://doc.rust-lang.org/1.58.0/core/str/traits/trait.FromStr.html\" title=\"trait core::str::traits::FromStr\">FromStr</a> for <a class=\"struct\" href=\"url/struct.Url.html\" title=\"struct url::Url\">Url</a>", false, ["url::Url"]⟩]),
  ("uuid", [⟨"impl <a class=\"trait\" href=\"https://doc.rust-lang.org/1.58.0/core/str/traits/trait.FromStr.html\" title=\"trait core::str::traits::FromStr\">FromStr</a> for <a class=\"struct\" href=\"uuid/struct.Uuid.html\" title=\"struct uuid::Uuid\">Uuid</a>", false, ["uuid::Uuid"]⟩])
]


/-- JavaScript object-key assignment `m[k] = v` on an association list:
overwrite the binding when the key is already present, append it otherwise. -/
def objInsert (m : List (String × List ImplementorRecord)) (k : String)
    (v : List ImplementorRecord) : List (String × List ImplementorRecord) :=
  if (m.map Prod.fst).contains k then
    m.map (fun p => if p.1 = k then (k, v) else p)
  else
    m ++ [(k, v)]

/-- The registry constant: the empty object `var implementors = {};` after the
41 assignments of the source file, applied in source order. -/
def implementors : List (String × List ImplementorRecord) :=
  registryAssignments.foldl (fun m p => objInsert m p.1 p.2) []

/-- JavaScript values that can sit in a `window` slot, as far as this file can
observe them: the callback slot may hold anything; numbers are modelled as
integers (truthiness only compares against zero). A function value carries one
bit of host behaviour: whether invoking it throws. -/
inductive JSValue where
  | undefined : JSValue
  | nullV : JSValue
  | boolean (b : Bool) : JSValue
  | number (n : Int) : JSValue
  | stringV (s : String) : JSValue
  | object : JSValue
  | registryVal (r : List (String × List ImplementorRecord)) : JSValue
  | functionVal (throwsOnCall : Bool) : JSValue
deriving DecidableEq, Repr

/-- JavaScript truthiness, as used by `if (window.register_implementors)`. -/
def truthy : JSValue → Bool
  | .undefined => false
  | .nullV => false
  | .boolean b => b
  | .number n => n != 0
  | .stringV s => s != ""
  | .object => true
  | .registryVal _ => true
  | .functionVal _ => true

/-- The part of the host environment the IIFE can touch: the callback slot
`window.register_implementors`, the pending-data slot
`window.pending_implementors`, and the rest of the `window` object. -/
structure Env where
  register_implementors : JSValue
  pending_implementors : JSValue
  others : List (String × JSValue)
deriving DecidableEq, Repr

/-- One recorded callback invocation, carrying the registry argument passed. -/
structure CallEvent where
  arg : List (String × List ImplementorRecord)
deriving DecidableEq, Repr

/-- The outcome of one run of the IIFE: the final environment, the callback
invocations performed in order, and whether the run ended by throwing. -/
structure RunResult where
  env : Env
  calls : List CallEvent
  threw : Bool
deriving DecidableEq, Repr

/-- One run of the IIFE body
`if (window.register_implementors) {window.register_implementors(implementors);}
else {window.pending_implementors = implementors;}`:
when the callback slot is truthy and holds a function, invoke it with the
registry (the run throws exactly when the callback body does); when it is
truthy but not callable, the call expression throws a `TypeError`; when it is
falsy, write the registry into the pending-data slot. -/
def publish (e : Env) : RunResult :=
  if truthy e.register_implementors then
    match e.register_implementors with
    | .functionVal throwsOnCall =>
        { env := e, calls := [⟨implementors⟩], threw := throwsOnCall }
    | _ => { env := e, calls := [], threw := true }
  else
    { env := { e with pending_implementors := .registryVal implementors },
      calls := [], threw := false }

/-- Helper: in a truthy environment `publish` leaves the whole environment
unchanged and performs a call exactly when the slot holds a function. -/
theorem publish_truthy_env (e : Env) (h : truthy e.register_implementors = true) :
    (publish e).env = e := by
  unfold publish
  rw [h]
  simp only [if_true]
  split <;> rfl

/-- Helper: in a falsy environment `publish` takes the fallback branch. -/
theorem publish_falsy (e : Env) (h : truthy e.register_implementors = false) :
    publish e = { env := { e with pending_implementors := .registryVal implementors },
                  calls := [], threw := false } := by
  unfold publish
  rw [h]
  rfl

/-- Helper: with a function in the callback slot `publish` invokes it once. -/
theorem publish_function (e : Env) (b : Bool)
    (h : e.register_implementors = .functionVal b) :
    publish e = { env := e, calls := [⟨implementors⟩], threw := b } := by
  unfold publish
  rw [h]
  rfl

/-- C1: when the callback slot holds a pre-installed callback function,
`publish` invokes it exactly once, with the full registry as its sole
argument, and leaves the pending-data slot unchanged. -/
theorem publish_callback_present (e : Env) (b : Bool)
    (h : e.register_implementors = .functionVal b) :
    (publish e).calls = [⟨implementors⟩] ∧
    (publish e).env.pending_implementors = e.pending_implementors := by
  rw [publish_function e b h]
  exact ⟨rfl, rfl⟩

/-- Witness for C1 at a concrete environment. -/
theorem publish_callback_present_witness :
    (Env.mk (.functionVal false) .undefined []).register_implementors
        = .functionVal false ∧
    ((publish (Env.mk (.functionVal false) .undefined [])).calls
        = [⟨implementors⟩] ∧
     (publish (Env.mk (.functionVal false) .undefined [])).env.pending_implementors
        = (Env.mk (.functionVal false) .undefined []).pending_implementors) :=
  ⟨rfl, publish_callback_present _ false rfl⟩

/-- C2: when no callback is pre-installed (the slot is `undefined`), `publish`
does not throw, leaves the callback slot unchanged, performs no invocation,
and writes the full registry into the pending-data slot. -/
theorem publish_callback_absent (e : Env)
    (h : e.register_implementors = .undefined) :
    (publish e).threw = false ∧
    (publish e).env.register_implementors = e.register_implementors ∧
    (publish e).env.pending_implementors = .registryVal implementors ∧
    (publish e).calls = [] := by
  rw [publish_falsy e (by rw [h]; rfl)]
  exact ⟨rfl, rfl, rfl, rfl⟩

/-- Witness for C2 at a concrete environment. -/
theorem publish_callback_absent_witness :
    (Env.mk .undefined .nullV []).register_implementors = .undefined ∧
    ((publish (Env.mk .undefined .nullV [])).threw = false ∧
     (publish (Env.mk .undefined .nullV [])).env.register_implementors
        = (Env.mk .undefined .nullV []).register_implementors ∧
     (publish (Env.mk .undefined .nullV [])).env.pending_implementors
        = .registryVal implementors ∧
     (publish (Env.mk .undefined .nullV [])).calls = []) :=
  ⟨rfl, publish_callback_absent _ rfl⟩

/-- C3: frame condition for one run of `publish`: the callback slot and the
rest of the window are never written, and the pending-data slot is written
(with the registry) exactly in the fallback branch, i.e. exactly when the
callback slot is falsy. -/
theorem publish_frame (e : Env) :
    (publish e).env.register_implementors = e.register_implementors ∧
    (publish e).env.others = e.others ∧
    (publish e).env.pending_implementors =
      (if truthy e.register_implementors then e.pending_implementors
       else .registryVal implementors) := by
  by_cases h : truthy e.register_implementors = true
  · rw [publish_truthy_env e h, h]
    exact ⟨rfl, rfl, rfl⟩
  · have hf : truthy e.register_implementors = false := Bool.eq_false_iff.mpr h
    rw [publish_falsy e hf, hf]
    exact ⟨rfl, rfl, rfl⟩

/-- C4 counterexample: with a truthy non-function value (the number 1) in the
callback slot, the run throws (a `TypeError` from calling a non-function), so
`publish` is not failure-free for every slot content. -/
theorem publish_can_throw :
    (publish (Env.mk (.number 1) .undefined [])).threw = true := by
  rfl

/-- C4 (amended): `publish` always terminates (it is a total function), and it
throws no error whenever the callback slot is falsy or holds a function whose
body does not throw. -/
theorem publish_no_throw (e : Env)
    (h : truthy e.register_implementors = false ∨
         e.register_implementors = .functionVal false) :
    (publish e).threw = false := by
  rcases h with h | h
  · rw [publish_falsy e h]
  · rw [publish_function e false h]

/-- Witness for C4 (amended) at a concrete environment. -/
theorem publish_no_throw_witness :
    (truthy (Env.mk .undefined .undefined []).register_implementors = false ∨
     (Env.mk .undefined .undefined []).register_implementors = .functionVal false) ∧
    (publish (Env.mk .undefined .undefined [])).threw = false :=
  ⟨Or.inl rfl, publish_no_throw _ (Or.inl rfl)⟩

set_option maxRecDepth 100000 in
/-- C5: every namespace key of the registry constant maps to a non-empty
record list. -/
theorem registry_complete :
    implementors.all (fun p => !p.2.isEmpty) = true := by decide

set_option maxRecDepth 100000 in
/-- C6: every record of the registry constant has a non-empty `text`, a
`synthetic` field equal to `false`, and at least one entry in `types`
(`synthetic` is a boolean by the type of `ImplementorRecord.synthetic`). -/
theorem registry_record_shape :
    implementors.all (fun p => p.2.all (fun r =>
      (!(r.text == "")) && (r.synthetic == false)
        && decide (1 ≤ r.types.length))) = true := by decide

set_option maxRecDepth 100000 in
/-- C7: the namespace keys of the registry constant are pairwise distinct. -/
theorem registry_keys_nodup : (implementors.map Prod.fst).Nodup := by decide

/-- C8: invoking `publish` twice: when the callback slot is falsy (and hence
stays falsy, since `publish` never writes it), the final pending-data slot
equals the one after a single invocation (last write wins); when the slot
holds a pre-installed callback, the two runs together invoke it exactly
twice. -/
theorem publish_twice (e : Env) (b : Bool) :
    (truthy e.register_implementors = false →
      (publish (publish e).env).env.pending_implementors
        = (publish e).env.pending_implementors) ∧
    (e.register_implementors = .functionVal b →
      (publish e).calls ++ (publish (publish e).env).calls
        = [⟨implementors⟩, ⟨implementors⟩]) := by
  constructor
  · intro h
    rw [publish_falsy e h]
    rw [publish_falsy { e with pending_implementors := .registryVal implementors } h]
  · intro h
    rw [publish_function e b h, publish_function e b h]
    rfl

/-- Witness for C8 at concrete environments: one with a falsy slot, one with a
pre-installed callback. -/
theorem publish_twice_witness :
    (truthy (Env.mk .nullV .undefined []).register_implementors = false ∧
     (publish (publish (Env.mk .nullV .undefined [])).env).env.pending_implementors
       = (publish (Env.mk .nullV .undefined [])).env.pending_implementors) ∧
    ((Env.mk (.functionVal false) .undefined []).register_implementors
        = .functionVal false ∧
     (publish (Env.mk (.functionVal false) .undefined [])).calls
       ++ (publish (publish (Env.mk (.functionVal false) .undefined [])).env).calls
       = [⟨implementors⟩, ⟨implementors⟩]) :=
  ⟨⟨rfl, (publish_twice (Env.mk .nullV .undefined []) false).1 rfl⟩,
   ⟨rfl, (publish_twice (Env.mk (.functionVal false) .undefined []) false).2 rfl⟩⟩

/-- C9: truthiness, not mere presence, decides the branch: a falsy callback
slot (e.g. `null`, `false`, `0`, `""`) routes to the fallback branch — the
registry is written to the pending-data slot, nothing is invoked, nothing is
thrown — while a truthy slot leaves the pending-data slot untouched. -/
theorem publish_truthiness (e : Env) :
    (truthy e.register_implementors = false →
      (publish e).env.pending_implementors = .registryVal implementors ∧
      (publish e).calls = [] ∧ (publish e).threw = false) ∧
    (truthy e.register_implementors = true →
      (publish e).env.pending_implementors = e.pending_implementors) := by
  constructor
  · intro h
    rw [publish_falsy e h]
    exact ⟨rfl, rfl, rfl⟩
  · intro h
    rw [publish_truthy_env e h]

/-- Witness for C9 at a concrete falsy (but non-`undefined`) environment. -/
theorem publish_truthiness_witness :
    truthy (Env.mk .nullV .undefined []).register_implementors = false ∧
    ((publish (Env.mk .nullV .undefined [])).env.pending_implementors
        = .registryVal implementors ∧
     (publish (Env.mk .nullV .undefined [])).calls = [] ∧
     (publish (Env.mk .nullV .undefined [])).threw = false) :=
  ⟨rfl, (publish_truthiness (Env.mk .nullV .undefined [])).1 rfl⟩

/-- C10: determinism: two runs of `publish` from environments with identical
slot contents produce identical final environments, identical call sequences
(including the registry argument), and identical throw status. -/
theorem publish_deterministic (e e' : Env)
    (h1 : e.register_implementors = e'.register_implementors)
    (h2 : e.pending_implementors = e'.pending_implementors)
    (h3 : e.others = e'.others) :
    publish e = publish e' := by
  cases e
  cases e'
  cases h1
  cases h2
  cases h3
  rfl

/-- Witness for C10 at a concrete pair of identical environments. -/
theorem publish_deterministic_witness :
    (Env.mk .undefined .nullV []).register_implementors
      = (Env.mk .undefined .nullV []).register_implementors ∧
    publish (Env.mk .undefined .nullV []) = publish (Env.mk .undefined .nullV []) :=
  ⟨rfl, publish_deterministic _ _ rfl rfl rfl⟩
